import Mathlib

/-!
Verification of the trip-planner core (transport / cost / POI modules).

The JavaScript source is shallowly embedded:
* JS numbers are modelled as `ℝ` where the code computes with transcendental
  functions (the Haversine geodesy pipeline) and as `ℚ`/`ℤ` where the code
  only performs rational arithmetic (costs, durations in minutes, route
  selection).  `Math.round` and `Number.prototype.toFixed` round half towards
  positive infinity, exactly as Mathlib's `round`.
* A `Route`'s `distance` field is the value carried by the `toFixed(2)`
  string, hence a rational with two decimal places.
* Fallible code (`throw`) is modelled with `Except`; the external routing
  provider is abstracted as an oracle argument.
* JS `x / 0` produces `NaN`/`Infinity`; percentage fields that can be
  non-finite are modelled as `Option ℚ` with `none` for the non-finite case.
-/

namespace TransportModule

/-- One turn instruction of a route (text, distance in km, duration in min). -/
structure Instruction where
  instruction : String
  distance : ℚ
  duration : ℤ
deriving DecidableEq

/-- A normalized route record, as produced by `getRoute` /
`createFallbackRoute` in `transport.js`. -/
structure Route where
  coordinates : List (ℝ × ℝ)
  distance : ℚ
  duration : String
  durationMinutes : ℤ
  instructions : List Instruction
  profile : String
  name : String
  icon : String
  type : String
  isFallback : Bool

/-- `toRad(degrees)` from `transport.js`. -/
noncomputable def toRad (degrees : ℝ) : ℝ := degrees * (Real.pi / 180)

/-- JavaScript's `Math.atan2(y, x)` on real (non-NaN) arguments. -/
noncomputable def atan2 (y x : ℝ) : ℝ :=
  if 0 < x then Real.arctan (y / x)
  else if x = 0 then
    if 0 < y then Real.pi / 2 else if y < 0 then -(Real.pi / 2) else 0
  else if 0 ≤ y then Real.arctan (y / x) + Real.pi
  else Real.arctan (y / x) - Real.pi

/-- `calculateDistance(lat1, lng1, lat2, lng2)` from `transport.js`:
great-circle distance in km by the Haversine formula, Earth radius 6371 km. -/
noncomputable def calculateDistance (lat1 lng1 lat2 lng2 : ℝ) : ℝ :=
  let R : ℝ := 6371
  let dLat := toRad (lat2 - lat1)
  let dLng := toRad (lng2 - lng1)
  let a := Real.sin (dLat / 2) * Real.sin (dLat / 2) +
    Real.cos (toRad lat1) * Real.cos (toRad lat2) *
    Real.sin (dLng / 2) * Real.sin (dLng / 2)
  let c := 2 * atan2 (Real.sqrt a) (Real.sqrt (1 - a))
  R * c

/-- `x.toFixed(2)` (as the rational number the string denotes). -/
noncomputable def toFixed2 (x : ℝ) : ℚ := ((round (x * 100) : ℤ) : ℚ) / 100

/-- `q.toFixed(1)` on a rational value (percentage rounding). -/
def toFixed1 (q : ℚ) : ℚ := ((round (q * 10) : ℤ) : ℚ) / 10

/-- JavaScript `a % b` for the non-negative operands used by
`formatDuration`. -/
def jsFloorMod (a b : ℚ) : ℚ := a - b * ((⌊a / b⌋ : ℤ) : ℚ)

/-- `formatDuration(seconds)` from `transport.js`. -/
def formatDuration (seconds : ℚ) : String :=
  let hours : ℤ := ⌊seconds / 3600⌋
  let minutes : ℤ := ⌊jsFloorMod seconds 3600 / 60⌋
  if 0 < hours then toString hours ++ "시간 " ++ toString minutes ++ "분"
  else toString minutes ++ "분"

/-- `getRouteType(route)` from `transport.js`; it reads exactly the
`distance` and `durationMinutes` fields of its argument. -/
def getRouteType (distance : ℚ) (durationMinutes : ℤ) : String :=
  if durationMinutes < 60 then "fastest"
  else if distance < 10 then "cheapest"
  else "balanced"

/-- `createFallbackRoute(start, end, name, icon, profile, speed)` from
`transport.js` (the validated version, lines 747-833).  Coordinates are
`[lng, lat]` pairs; `parseFloat` on a number is the identity and the `isNaN`
guards cannot fire on real inputs, so the three fatal guards are
`speed <= 0`, `distance <= 0`, `durationMinutes <= 0`. -/
noncomputable def createFallbackRoute (start dest : ℝ × ℝ)
    (name icon profile : String) (speed : ℝ) : Except String Route :=
  if speed ≤ 0 then Except.error "Invalid speed" else
  let startLng := start.1
  let startLat := start.2
  let endLng := dest.1
  let endLat := dest.2
  let distance := calculateDistance startLat startLng endLat endLng
  if distance ≤ 0 then Except.error "Invalid distance calculated" else
  let travelDistance := distance * 1.3
  let durationMinutes := round (travelDistance / speed * 60)
  if durationMinutes ≤ 0 then Except.error "Invalid duration calculated" else
  Except.ok {
    coordinates := [start, dest]
    distance := toFixed2 travelDistance
    duration := formatDuration ((durationMinutes : ℚ) * 60)
    durationMinutes := durationMinutes
    instructions := [⟨name ++ "(으)로 이동", toFixed2 travelDistance, durationMinutes⟩]
    profile := profile
    name := name
    icon := icon
    type := getRouteType (toFixed2 travelDistance) durationMinutes
    isFallback := true }

/-- One entry of the fixed `profiles` table of `getMultipleRoutes`. -/
structure ProfileSpec where
  profile : String
  name : String
  icon : String
  speed : ℝ

/-- The fixed transport-mode table of `getMultipleRoutes`. -/
noncomputable def profiles : List ProfileSpec :=
  [⟨"driving-car", "자동차", "fa-car", 60⟩,
   ⟨"foot-walking", "도보", "fa-person-walking", 5⟩,
   ⟨"cycling-regular", "자전거", "fa-bicycle", 15⟩]

/-- One arm of the `routePromises` map in `getMultipleRoutes`: try the
provider (abstracted as `oracle`, standing for `getRoute`); on success
decorate the route with the profile's display name, icon and type; on any
provider failure build the fallback route, and if that also throws resolve
to `null` (here `none`). -/
noncomputable def acquireRoute (oracle : String → Except String Route)
    (start dest : ℝ × ℝ) (p : ProfileSpec) : Option Route :=
  match oracle p.profile with
  | Except.ok route =>
      some { route with
        name := p.name
        icon := p.icon
        type := getRouteType route.distance route.durationMinutes }
  | Except.error _ =>
      match createFallbackRoute start dest p.name p.icon p.profile p.speed with
      | Except.ok fallbackRoute => some fallbackRoute
      | Except.error _ => none

/-- `getMultipleRoutes(start, end)` from `transport.js`.  The coordinate
pairs are well-formed by type, so the initial 2-element-array validation
cannot fire; `Promise.all` keeps the profile order, `null` results are
filtered out, and an empty remainder throws `No routes could be
calculated`. -/
noncomputable def getMultipleRoutes (oracle : String → Except String Route)
    (start dest : ℝ × ℝ) : Except String (List Route) :=
  let routes := profiles.map (acquireRoute oracle start dest)
  let validRoutes := routes.filterMap id
  if validRoutes.length = 0 then Except.error "No routes could be calculated"
  else Except.ok validRoutes

/-- Result record of `calculateRouteCost`. -/
structure RouteCost where
  transport : ℤ
  distance : ℚ
deriving DecidableEq

/-- `calculateRouteCost(route)` from `transport.js`: per-profile transport
cost in KRW (driving 150/km, walking and cycling free, otherwise a
public-transport estimate of 1000 KRW per 10 km). -/
def calculateRouteCost (route : Route) : RouteCost :=
  let distance := route.distance
  let transportCost : ℤ :=
    if route.profile = "driving-car" then round (distance * 150)
    else if route.profile = "foot-walking" then 0
    else if route.profile = "cycling-regular" then 0
    else round (distance / 10 * 1000)
  { transport := transportCost, distance := distance }

/-- `getOptimalRoute(routes, criteria)` from `transport.js`.  A missing
(`null`) list is `none`; `Array.prototype.reduce` without an initial value
is a left fold over the tail seeded with the head; the `switch` falls
through to the `balanced` scoring for `'balanced'` and for any unknown
criterion. -/
def getOptimalRoute (routes : Option (List Route)) (criteria : String) :
    Option Route :=
  match routes with
  | none => none
  | some [] => none
  | some (h :: t) =>
    if criteria = "fastest" then
      some (t.foldl (fun best current =>
        if current.durationMinutes < best.durationMinutes then current
        else best) h)
    else if criteria = "cheapest" then
      some (t.foldl (fun best current =>
        if (calculateRouteCost current).transport <
            (calculateRouteCost best).transport then current
        else best) h)
    else
      some (t.foldl (fun best current =>
        if (current.durationMinutes : ℚ) / 60 +
            ((calculateRouteCost current).transport : ℚ) / 10000 <
            (best.durationMinutes : ℚ) / 60 +
            ((calculateRouteCost best).transport : ℚ) / 10000 then current
        else best) h)

/-- `getOptimalRoute` with its default `criteria = 'balanced'` argument. -/
def getOptimalRouteDefault (routes : Option (List Route)) : Option Route :=
  getOptimalRoute routes "balanced"

end TransportModule

namespace CostModule

open TransportModule (Route)

/-- The three accommodation/food tiers of `COSTS` (`cost.js`).  The module
only ever indexes the tables with these three keys, so the valid-input
domain is this closed enumeration. -/
inductive BudgetLevel where
  | budget
  | standard
  | luxury
deriving DecidableEq

/-- `COSTS.accommodation` (per night, KRW). -/
def accommodationRate : BudgetLevel → ℤ
  | BudgetLevel.budget => 50000
  | BudgetLevel.standard => 100000
  | BudgetLevel.luxury => 300000

/-- `COSTS.food` (per day, KRW). -/
def foodRate : BudgetLevel → ℤ
  | BudgetLevel.budget => 30000
  | BudgetLevel.standard => 60000
  | BudgetLevel.luxury => 150000

/-- `COSTS.activities[category] || 10000` (per place, KRW; the default also
covers unknown categories, and no listed rate is zero so `||` never
misfires here). -/
def activityRate (category : String) : ℤ :=
  if category = "nature" then 5000
  else if category = "culture" then 10000
  else if category = "food" then 15000
  else if category = "shopping" then 50000
  else if category = "history" then 8000
  else if category = "adventure" then 30000
  else 10000

/-- A point of interest as produced by `processOverpassResults`
(`places.js`). -/
structure Place where
  id : ℤ
  name : String
  lat : ℚ
  lng : ℚ
  category : String
  description : String
  icon : String
  type : String
deriving DecidableEq

/-- `COSTS.transport[profile] || COSTS.transport['public-transport']` from
`calculateTransportCost`.  Note the JS quirk: the stored walking/cycling
rates are `0`, which is falsy, so `||` replaces them by the
public-transport rate of 100. -/
def transportRate (profile : String) : ℚ :=
  let stored : Option ℚ :=
    if profile = "driving-car" then some 150
    else if profile = "foot-walking" then some 0
    else if profile = "cycling-regular" then some 0
    else if profile = "public-transport" then some 100
    else none
  match stored with
  | some v => if v = 0 then 100 else v
  | none => 100

/-- `calculateTransportCost(route)` from `cost.js`. -/
def calculateTransportCost (route : Option Route) : ℤ :=
  match route with
  | none => 0
  | some r => round (r.distance * transportRate r.profile)

/-- `calculateActivitiesCost(places)` from `cost.js`
(`place.category || 'culture'`, modelling the falsy empty string). -/
def calculateActivitiesCost (places : List Place) : ℤ :=
  places.foldl (fun total place =>
    let category := if place.category = "" then "culture" else place.category
    total + activityRate category) 0

/-- The percentage fields of a `CostBreakdown`.  Each is the value of
`(component / total * 100).toFixed(1)`; when `total = 0` the JS division
yields `NaN` (or `Infinity`), modelled as `none`. -/
def pctOf (component total : ℤ) : Option ℚ :=
  if total = 0 then none
  else some (TransportModule.toFixed1 ((component : ℚ) / (total : ℚ) * 100))

/-- The record returned by `calculateTripCost`. -/
structure CostBreakdown where
  transport : ℤ
  accommodation : ℤ
  food : ℤ
  activities : ℤ
  total : ℤ
  transportPercent : Option ℚ
  accommodationPercent : Option ℚ
  foodPercent : Option ℚ
  activitiesPercent : Option ℚ
deriving DecidableEq

/-- `calculateTripCost(params)` from `cost.js` (defaults: duration 3, both
levels `standard`, `places = []`). -/
def calculateTripCost (route : Option Route) (duration : ℤ)
    (accommodationLevel foodLevel : BudgetLevel) (places : List Place) :
    CostBreakdown :=
  let transportCost := calculateTransportCost route
  let nights := max 0 (duration - 1)
  let accommodationCost := accommodationRate accommodationLevel * nights
  let foodCost := foodRate foodLevel * duration
  let activitiesCost := calculateActivitiesCost places
  let total := transportCost + accommodationCost + foodCost + activitiesCost
  { transport := transportCost
    accommodation := accommodationCost
    food := foodCost
    activities := activitiesCost
    total := total
    transportPercent := pctOf transportCost total
    accommodationPercent := pctOf accommodationCost total
    foodPercent := pctOf foodCost total
    activitiesPercent := pctOf activitiesCost total }

end CostModule

namespace TransportModule

/-- Coordinates and display name of one curated gazetteer entry. -/
structure CityEntry where
  name : String
  lat : ℚ
  lng : ℚ
deriving DecidableEq

/-- One result of the address search. -/
structure GeoResult where
  name : String
  lat : ℚ
  lng : ℚ
  type : String
  source : String
deriving DecidableEq

/-- The `POPULAR_CITIES` table of `transport.js` (object literal; entry
order is insertion order). -/
def POPULAR_CITIES : List (String × CityEntry) :=
  [("서울", ⟨"서울특별시, 대한민국", 37.5665, 126.9780⟩),
   ("서울시", ⟨"서울특별시, 대한민국", 37.5665, 126.9780⟩),
   ("부산", ⟨"부산광역시, 대한민국", 35.1796, 129.0756⟩),
   ("인천", ⟨"인천광역시, 대한민국", 37.4563, 126.7052⟩),
   ("대구", ⟨"대구광역시, 대한민국", 35.8714, 128.6014⟩),
   ("대전", ⟨"대전광역시, 대한민국", 36.3504, 127.3845⟩),
   ("광주", ⟨"광주광역시, 대한민국", 35.1595, 126.8526⟩),
   ("울산", ⟨"울산광역시, 대한민국", 35.5384, 129.3114⟩),
   ("제주", ⟨"제주특별자치도, 대한민국", 33.4996, 126.5312⟩),
   ("수원", ⟨"수원시, 경기도, 대한민국", 37.2636, 127.0286⟩),
   ("창원", ⟨"창원시, 경상남도, 대한민국", 35.2280, 128.6811⟩),
   ("고양", ⟨"고양시, 경기도, 대한민국", 37.6584, 126.8320⟩),
   ("용인", ⟨"용인시, 경기도, 대한민국", 37.2411, 127.1776⟩),
   ("성남", ⟨"성남시, 경기도, 대한민국", 37.4201, 127.1262⟩),
   ("청주", ⟨"청주시, 충청북도, 대한민국", 36.6424, 127.4890⟩),
   ("전주", ⟨"전주시, 전라북도, 대한민국", 35.8242, 127.1480⟩),
   ("천안", ⟨"천안시, 충청남도, 대한민국", 36.8151, 127.1139⟩),
   ("안산", ⟨"안산시, 경기도, 대한민국", 37.3219, 126.8309⟩),
   ("안양", ⟨"안양시, 경기도, 대한민국", 37.3943, 126.9568⟩),
   ("포항", ⟨"포항시, 경상북도, 대한민국", 36.0190, 129.3435⟩),
   ("강릉", ⟨"강릉시, 강원도, 대한민국", 37.7519, 128.8761⟩),
   ("경주", ⟨"경주시, 경상북도, 대한민국", 35.8562, 129.2247⟩),
   ("여수", ⟨"여수시, 전라남도, 대한민국", 34.7604, 127.6622⟩),
   ("속초", ⟨"속초시, 강원도, 대한민국", 38.2070, 128.5918⟩),
   ("도쿄", ⟨"도쿄, 일본", 35.6762, 139.6503⟩),
   ("오사카", ⟨"오사카, 일본", 34.6937, 135.5023⟩),
   ("교토", ⟨"교토, 일본", 35.0116, 135.7681⟩),
   ("후쿠오카", ⟨"후쿠오카, 일본", 33.5904, 130.4017⟩),
   ("베이징", ⟨"베이징, 중국", 39.9042, 116.4074⟩),
   ("상하이", ⟨"상하이, 중국", 31.2304, 121.4737⟩),
   ("홍콩", ⟨"홍콩", 22.3193, 114.1694⟩),
   ("타이베이", ⟨"타이베이, 대만", 25.0330, 121.5654⟩),
   ("방콕", ⟨"방콕, 태국", 13.7563, 100.5018⟩),
   ("싱가포르", ⟨"싱가포르", 1.3521, 103.8198⟩),
   ("파리", ⟨"파리, 프랑스", 48.8566, 2.3522⟩),
   ("런던", ⟨"런던, 영국", 51.5074, -0.1278⟩),
   ("뉴욕", ⟨"뉴욕, 미국", 40.7128, -74.0060⟩),
   ("로스앤젤레스", ⟨"로스앤젤레스, 미국", 34.0522, -118.2437⟩),
   ("시드니", ⟨"시드니, 호주", -33.8688, 151.2093⟩)]

/-- `String.prototype.toLowerCase` (ASCII letters; other characters,
including all the Korean keys, are unchanged). -/
def jsLower (s : String) : String := String.mk (s.data.map Char.toLower)

/-- `String.prototype.trim` (the table keys and ordinary queries only ever
carry plain spaces as surrounding whitespace). -/
def jsTrim (s : String) : String :=
  String.mk (((s.data.dropWhile (· = ' ')).reverse.dropWhile (· = ' ')).reverse)

/-- `String.prototype.includes(sub)`. -/
def jsIncludes (s sub : String) : Bool := decide (sub.data <:+: s.data)

/-- The result record pushed by `searchPopularCities` for a matching
entry. -/
def cityResult (c : CityEntry) : GeoResult :=
  ⟨c.name, c.lat, c.lng, "city", "popular"⟩

/-- The exact-match pass of `searchPopularCities`. -/
def exactCityMatches (normalizedQuery : String) : List GeoResult :=
  (POPULAR_CITIES.filter (fun kc => jsLower kc.1 = normalizedQuery)).map
    (fun kc => cityResult kc.2)

/-- The partial-match pass of `searchPopularCities` (substring of the key
or of the display name). -/
def partialCityMatches (normalizedQuery : String) : List GeoResult :=
  (POPULAR_CITIES.filter (fun kc =>
    jsIncludes (jsLower kc.1) normalizedQuery ||
    jsIncludes (jsLower kc.2.name) normalizedQuery)).map
    (fun kc => cityResult kc.2)

/-- `searchPopularCities(query)` from `transport.js`: exact key match
first, then substring match, result capped at 5 by `slice(0, 5)`. -/
def searchPopularCities (query : String) : List GeoResult :=
  if query = "" then []
  else
    let normalizedQuery := jsLower (jsTrim query)
    let exact := exactCityMatches normalizedQuery
    let results := if exact.isEmpty then partialCityMatches normalizedQuery
      else exact
    results.take 5

/-- Observable outcome of `searchAddress`: either a result list produced
synchronously from the curated table (no network request, no rate-limit
delay), or a hand-off to the throttled Nominatim call. -/
inductive SearchOutcome where
  | results (rs : List GeoResult)
  | network
deriving DecidableEq

/-- `searchAddress(query)` from `transport.js` (version with the curated
table, lines 515-578) up to its first suspension point: short queries
return `[]`, curated hits return immediately, and only a curated miss
reaches the rate-limited API call. -/
def searchAddress (query : String) : SearchOutcome :=
  if query.length < 2 then SearchOutcome.results []
  else
    let popularResults := searchPopularCities query
    if popularResults.isEmpty then SearchOutcome.network
    else SearchOutcome.results popularResults

/-- Left-pad the fractional digits of `toFixed(4)` with zeros. -/
def padLeft4 (k : ℕ) : String :=
  let s := toString k
  String.mk (List.replicate (4 - s.length) '0') ++ s

/-- `q.toFixed(4)` on a rational value, as a string. -/
def ratToFixed4 (q : ℚ) : String :=
  let n : ℤ := round (q * 10000)
  let sign := if n < 0 then "-" else ""
  let m := n.natAbs
  sign ++ toString (m / 10000) ++ "." ++ padLeft4 (m % 10000)

/-- The composite deduplication key of `deduplicatePOIs` (`places.js`):
name plus both coordinates rounded to 4 decimals. -/
def poiKey (p : CostModule.Place) : String :=
  p.name ++ "_" ++ ratToFixed4 p.lat ++ "_" ++ ratToFixed4 p.lng

/-- The loop of `deduplicatePOIs`: `seen` is the set of keys already in the
`Map`; the first occurrence of each key is kept, in insertion order. -/
def dedupAux (seen : List String) : List CostModule.Place → List CostModule.Place
  | [] => []
  | p :: rest =>
    if poiKey p ∈ seen then dedupAux seen rest
    else p :: dedupAux (poiKey p :: seen) rest

/-- `deduplicatePOIs(pois)` from `places.js`. -/
def deduplicatePOIs (pois : List CostModule.Place) : List CostModule.Place :=
  dedupAux [] pois

/-- A provider oracle on which every `getRoute` attempt fails (network
error, timeout, CORS block, ...). -/
def failOracle : String → Except String Route :=
  fun _ => Except.error "Network error or CORS blocked"

end TransportModule

namespace TransportModule

/-! Helper lemmas. -/

lemma round_pos_of_half_le (x : ℝ) (h : 1/2 ≤ x) : 0 < round x := by
  rw [round_eq]
  have h1 : (1 : ℤ) ≤ ⌊x + 1/2⌋ := by
    rw [Int.le_floor]
    push_cast
    linarith
  omega

lemma round_nonpos_of_lt_half (x : ℝ) (h : x < 1/2) : round x ≤ 0 := by
  rw [round_eq]
  have h1 : ⌊x + 1/2⌋ < 1 := by
    rw [Int.floor_lt]
    push_cast
    linarith
  omega

/-- The Haversine distance from `[lng, lat] = [0, 0]` to `[0, 90]` in
closed form: a quarter of a great circle. -/
lemma calculateDistance_pole : calculateDistance 0 0 90 0 = 6371 * Real.pi / 2 := by
  unfold calculateDistance toRad
  norm_num
  have e1 : (90:ℝ) * (Real.pi/180) / 2 = Real.pi/4 := by ring
  rw [e1, Real.sin_pi_div_four]
  have e2 : Real.sqrt 2 / 2 * (Real.sqrt 2 / 2) = 1/2 := by
    rw [div_mul_div_comm, Real.mul_self_sqrt (by norm_num : (0:ℝ) ≤ 2)]
    norm_num
  rw [e2]
  have e3 : (1:ℝ) - 1/2 = 1/2 := by norm_num
  rw [e3]
  have hpos : 0 < Real.sqrt (1/2) := Real.sqrt_pos.mpr (by norm_num)
  unfold atan2
  rw [if_pos hpos, div_self (ne_of_gt hpos), Real.arctan_one]
  ring

/-- The Haversine distance from `[0, 0]` to `[0, 0.001]` (about 111 m) in
closed form. -/
lemma calculateDistance_near : calculateDistance 0 0 (1/1000) 0 = 6371 * Real.pi / 180000 := by
  unfold calculateDistance toRad
  norm_num
  have e1 : (1/1000:ℝ) * (Real.pi/180) / 2 = Real.pi/360000 := by ring
  rw [e1]
  have ht0 : 0 < Real.pi / 360000 := by positivity
  have htlt : Real.pi / 360000 < Real.pi / 2 := by linarith [Real.pi_pos]
  have hsin_nonneg : 0 ≤ Real.sin (Real.pi / 360000) :=
    Real.sin_nonneg_of_nonneg_of_le_pi (le_of_lt ht0) (by linarith [Real.pi_pos])
  have hcos_pos : 0 < Real.cos (Real.pi / 360000) :=
    Real.cos_pos_of_mem_Ioo ⟨by linarith [Real.pi_pos], htlt⟩
  have h1ms : 1 - Real.sin (Real.pi / 360000) * Real.sin (Real.pi / 360000) =
      Real.cos (Real.pi / 360000) * Real.cos (Real.pi / 360000) := by
    have h := Real.sin_sq_add_cos_sq (Real.pi / 360000)
    rw [sq, sq] at h
    linarith
  rw [Real.sqrt_mul_self hsin_nonneg, h1ms, Real.sqrt_mul_self (le_of_lt hcos_pos)]
  unfold atan2
  rw [if_pos hcos_pos, ← Real.tan_eq_sin_div_cos,
    Real.arctan_tan (by linarith [Real.pi_pos]) htlt]
  ring

lemma toFixed2_close (x : ℝ) : |((toFixed2 x : ℚ) : ℝ) - x| ≤ 1/200 := by
  unfold toFixed2
  push_cast
  have h := abs_sub_round (x * 100)
  have e : ((round (x * 100) : ℤ) : ℝ) / 100 - x = (((round (x * 100) : ℤ) : ℝ) - x * 100) / 100 := by
    ring
  rw [e, abs_div, abs_of_pos (by norm_num : (0:ℝ) < 100), abs_sub_comm]
  linarith

lemma toFixed2_pos (x : ℝ) (h : 1/2 ≤ x) : 0 < toFixed2 x := by
  unfold toFixed2
  have h1 : (1:ℤ) ≤ round (x * 100) := by
    have := round_pos_of_half_le (x * 100) (by linarith)
    omega
  have h2 : (0:ℚ) < ((round (x * 100) : ℤ) : ℚ) := by
    exact_mod_cast lt_of_lt_of_le Int.zero_lt_one h1
  exact div_pos h2 (by norm_num)

/-- When all three guards pass, `createFallbackRoute` returns the route
record built from the inflated straight-line distance. -/
lemma createFallbackRoute_ok (start dest : ℝ × ℝ) (name icon profile : String)
    (speed d : ℝ) (m : ℤ)
    (hdeq : calculateDistance start.2 start.1 dest.2 dest.1 = d)
    (hmeq : round (d * 1.3 / speed * 60) = m)
    (hs : 0 < speed) (hd : 0 < d) (hm : 0 < m) :
    createFallbackRoute start dest name icon profile speed = Except.ok
      ⟨[start, dest], toFixed2 (d * 1.3), formatDuration ((m : ℚ) * 60), m,
       [⟨name ++ "(으)로 이동", toFixed2 (d * 1.3), m⟩],
       profile, name, icon, getRouteType (toFixed2 (d * 1.3)) m, true⟩ := by
  subst hdeq
  subst hmeq
  unfold createFallbackRoute
  rw [if_neg (not_le.mpr hs), if_neg (not_le.mpr hd), if_neg (not_le.mpr hm)]

/-- Existential packaging of `createFallbackRoute_ok` with the field facts
the claims need. -/
lemma createFallbackRoute_spec (start dest : ℝ × ℝ) (name icon profile : String)
    (speed : ℝ) (hs : 0 < speed)
    (hd : 0 < calculateDistance start.2 start.1 dest.2 dest.1)
    (hm : 0 < round (calculateDistance start.2 start.1 dest.2 dest.1 * 1.3 / speed * 60)) :
    ∃ r : Route, createFallbackRoute start dest name icon profile speed = Except.ok r ∧
      r.distance = toFixed2 (calculateDistance start.2 start.1 dest.2 dest.1 * 1.3) ∧
      r.durationMinutes = round (calculateDistance start.2 start.1 dest.2 dest.1 * 1.3 / speed * 60) ∧
      r.coordinates = [start, dest] ∧
      r.instructions.length = 1 ∧
      r.isFallback = true ∧
      r.profile = profile ∧
      r.name = name := by
  exact ⟨_, createFallbackRoute_ok start dest name icon profile speed _ _ rfl rfl hs hd hm,
    rfl, rfl, rfl, rfl, rfl, rfl, rfl⟩

/-- The third guard of `createFallbackRoute` is fatal: a duration that
rounds to zero throws instead of producing a route. -/
lemma createFallbackRoute_err_duration (start dest : ℝ × ℝ) (name icon profile : String)
    (speed : ℝ) (hs : 0 < speed)
    (hd : 0 < calculateDistance start.2 start.1 dest.2 dest.1)
    (hm : round (calculateDistance start.2 start.1 dest.2 dest.1 * 1.3 / speed * 60) ≤ 0) :
    createFallbackRoute start dest name icon profile speed =
      Except.error "Invalid duration calculated" := by
  unfold createFallbackRoute
  rw [if_neg (not_le.mpr hs), if_neg (not_le.mpr hd), if_pos hm]

/-- A left fold with a strictly-less-than comparison returns the first
element of `b :: t` attaining the minimum of `f`. -/
lemma foldl_pick_first_min {α : Type} [LinearOrder α] (f : Route → α)
    (g : Route → Route → Route) (hg : ∀ b c, g b c = if f c < f b then c else b) :
    ∀ (t : List Route) (b : Route), ∃ pre post,
      b :: t = pre ++ (t.foldl g b) :: post ∧
      (∀ x ∈ b :: t, f (t.foldl g b) ≤ f x) ∧
      ∀ x ∈ pre, f (t.foldl g b) < f x := by
  intro t
  induction t with
  | nil =>
    intro b
    exact ⟨[], [], rfl, by simp, by simp⟩
  | cons c t ih =>
    intro b
    rw [List.foldl_cons, hg b c]
    by_cases hc : f c < f b
    · rw [if_pos hc]
      obtain ⟨pre, post, hsplit, hmin, hpre⟩ := ih c
      refine ⟨b :: pre, post, ?_, ?_, ?_⟩
      · rw [List.cons_append, ← hsplit]
      · intro x hx
        rcases List.mem_cons.mp hx with rfl | hx
        · exact le_of_lt (lt_of_le_of_lt (hmin c (List.mem_cons_self c t)) hc)
        · exact hmin x hx
      · intro x hx
        rcases List.mem_cons.mp hx with rfl | hx
        · exact lt_of_le_of_lt (hmin c (List.mem_cons_self c t)) hc
        · exact hpre x hx
    · rw [if_neg hc]
      obtain ⟨pre, post, hsplit, hmin, hpre⟩ := ih b
      have hbc : f b ≤ f c := not_lt.mp hc
      cases pre with
      | nil =>
        simp only [List.nil_append] at hsplit
        injection hsplit with h1 h2
        refine ⟨[], c :: t, ?_, ?_, by simp⟩
        · rw [List.nil_append, ← h1]
        · intro x hx
          rcases List.mem_cons.mp hx with rfl | hx
          · exact hmin x (List.mem_cons_self x t)
          · rcases List.mem_cons.mp hx with rfl | hx
            · exact le_trans (hmin b (List.mem_cons_self b t)) hbc
            · exact hmin x (List.mem_cons_of_mem b hx)
      | cons p pre₂ =>
        rw [List.cons_append] at hsplit
        injection hsplit with h1 h2
        refine ⟨b :: c :: pre₂, post, ?_, ?_, ?_⟩
        · simp only [List.cons_append]
          rw [← h2]
        · intro x hx
          rcases List.mem_cons.mp hx with rfl | hx
          · exact hmin x (List.mem_cons_self x t)
          · rcases List.mem_cons.mp hx with rfl | hx
            · exact le_trans (hmin b (List.mem_cons_self b t)) hbc
            · exact hmin x (List.mem_cons_of_mem b hx)
        · intro x hx
          have hp := hpre p (List.mem_cons_self p pre₂)
          rw [← h1] at hp
          rcases List.mem_cons.mp hx with rfl | hx
          · exact hp
          · rcases List.mem_cons.mp hx with rfl | hx
            · exact lt_of_lt_of_le hp hbc
            · exact hpre x (List.mem_cons_of_mem p hx)

/-- The output of one `dedupAux` pass has no key in `seen` and pairwise
distinct keys. -/
lemma dedupAux_keys (l : List CostModule.Place) : ∀ seen : List String,
    (∀ p ∈ dedupAux seen l, poiKey p ∉ seen) ∧
    (dedupAux seen l).Pairwise (fun a b => poiKey a ≠ poiKey b) := by
  induction l with
  | nil => exact fun seen => ⟨by simp [dedupAux], by simp [dedupAux]⟩
  | cons p rest ih =>
    intro seen
    by_cases hp : poiKey p ∈ seen
    · simp only [dedupAux, if_pos hp]
      exact ih seen
    · simp only [dedupAux, if_neg hp]
      obtain ⟨hnotin, hpw⟩ := ih (poiKey p :: seen)
      refine ⟨?_, ?_⟩
      · intro x hx
        rcases List.mem_cons.mp hx with rfl | hx
        · exact hp
        · intro hxs
          exact hnotin x hx (List.mem_cons_of_mem _ hxs)
      · refine List.Pairwise.cons ?_ hpw
        intro x hx he
        exact hnotin x hx (he ▸ List.mem_cons_self _ _)

/-- `dedupAux` leaves a list alone when its keys avoid `seen` and are
pairwise distinct. -/
lemma dedupAux_fixed (l : List CostModule.Place) : ∀ seen : List String,
    (∀ p ∈ l, poiKey p ∉ seen) →
    l.Pairwise (fun a b => poiKey a ≠ poiKey b) →
    dedupAux seen l = l := by
  induction l with
  | nil => intro seen _ _; rfl
  | cons p rest ih =>
    intro seen hnot hpw
    have hp : poiKey p ∉ seen := hnot p (List.mem_cons_self p rest)
    simp only [dedupAux, if_neg hp]
    congr 1
    apply ih
    · intro x hx
      simp only [List.mem_cons]
      rintro (he | hs)
      · exact (List.pairwise_cons.mp hpw).1 x hx he.symm
      · exact hnot x (List.mem_cons_of_mem p hx) hs
    · exact (List.pairwise_cons.mp hpw).2

end TransportModule

open TransportModule

/-! Claim theorems. -/

/-- C1: for every origin/destination pair of valid numeric `[lng, lat]`
coordinates and every profile with positive average speed (stated with the
construction guards of the code as hypotheses: the straight-line distance
is positive and the estimated duration does not round to zero), the
fallback route built by `createFallbackRoute` has distance equal to
`haversine(origin, destination) * 1.3` (within the `toFixed(2)` rounding of
at most 1/200 km), `durationMinutes = round(inflatedDistance / speed * 60)`,
coordinate sequence exactly `[origin, destination]`, a single synthetic
instruction, and `isFallback = true`. -/
theorem c1_fallback_route_shape (start dest : ℝ × ℝ) (name icon profile : String)
    (speed : ℝ) (hspeed : 0 < speed)
    (hdist : 0 < calculateDistance start.2 start.1 dest.2 dest.1)
    (hdur : 0 < round (calculateDistance start.2 start.1 dest.2 dest.1 * 1.3 / speed * 60)) :
    ∃ r : Route, createFallbackRoute start dest name icon profile speed = Except.ok r ∧
      r.distance = toFixed2 (calculateDistance start.2 start.1 dest.2 dest.1 * 1.3) ∧
      |((r.distance : ℚ) : ℝ) - calculateDistance start.2 start.1 dest.2 dest.1 * 1.3| ≤ 1/200 ∧
      r.durationMinutes = round (calculateDistance start.2 start.1 dest.2 dest.1 * 1.3 / speed * 60) ∧
      r.coordinates = [start, dest] ∧
      r.instructions.length = 1 ∧
      r.isFallback = true := by
  obtain ⟨r, hok, h1, h2, h3, h4, h5, -, -⟩ :=
    createFallbackRoute_spec start dest name icon profile speed hspeed hdist hdur
  refine ⟨r, hok, h1, ?_, h2, h3, h4, h5⟩
  rw [h1]
  exact toFixed2_close _

/-- C1 witness: the fallback route from `[0, 0]` to `[0, 90]` at driving
speed 60 km/h. -/
theorem c1_fallback_route_shape_witness : (0:ℝ) < 60 ∧ 0 < calculateDistance 0 0 90 0 ∧
    0 < round (calculateDistance 0 0 90 0 * 1.3 / 60 * 60) ∧
    (∃ r : Route, createFallbackRoute (0, 0) (0, 90) "자동차" "fa-car" "driving-car" 60 = Except.ok r ∧
      r.distance = toFixed2 (calculateDistance 0 0 90 0 * 1.3) ∧
      |((r.distance : ℚ) : ℝ) - calculateDistance 0 0 90 0 * 1.3| ≤ 1/200 ∧
      r.durationMinutes = round (calculateDistance 0 0 90 0 * 1.3 / 60 * 60) ∧
      r.coordinates = [(0, 0), (0, 90)] ∧
      r.instructions.length = 1 ∧
      r.isFallback = true) := by
  have hd0 : 0 < calculateDistance 0 0 90 0 := by
    rw [calculateDistance_pole]; positivity
  have hm0 : 0 < round (calculateDistance 0 0 90 0 * 1.3 / 60 * 60) := by
    apply round_pos_of_half_le
    rw [calculateDistance_pole]
    nlinarith [Real.pi_gt_three]
  exact ⟨by norm_num, hd0, hm0,
    c1_fallback_route_shape (0, 0) (0, 90) "자동차" "fa-car" "driving-car" 60 (by norm_num) hd0 hm0⟩

/-- C2 counterexample: the claim fails as stated.  For the valid, in-range,
distinct pair `[0, 0]` and `[0, 0.001]` (about 111 m apart), with every
primary attempt failing, the driving fallback's duration rounds to zero so
its construction throws, and `getMultipleRoutes` returns only 2 routes, not
one per profile. -/
theorem c2_routes_per_profile_counterexample : ∃ rs : List Route,
    getMultipleRoutes failOracle (0, 0) (0, 1/1000) = Except.ok rs ∧ rs.length = 2 := by
  have ht : 0 < calculateDistance (0:ℝ) 0 (1/1000) 0 := by
    rw [calculateDistance_near]; positivity
  have hmD : round (calculateDistance (0:ℝ) 0 (1/1000) 0 * 1.3 / 60 * 60) ≤ 0 := by
    apply round_nonpos_of_lt_half
    rw [calculateDistance_near]
    nlinarith [Real.pi_lt_d2]
  have hmW : 0 < round (calculateDistance (0:ℝ) 0 (1/1000) 0 * 1.3 / 5 * 60) := by
    apply round_pos_of_half_le
    rw [calculateDistance_near]
    nlinarith [Real.pi_gt_three]
  have hmC : 0 < round (calculateDistance (0:ℝ) 0 (1/1000) 0 * 1.3 / 15 * 60) := by
    apply round_pos_of_half_le
    rw [calculateDistance_near]
    nlinarith [Real.pi_gt_three]
  have errD := createFallbackRoute_err_duration (0, 0) (0, 1/1000) "자동차" "fa-car"
    "driving-car" 60 (by norm_num) ht hmD
  obtain ⟨rW, hW, -, -, -, -, -, -, -⟩ :=
    createFallbackRoute_spec (0, 0) (0, 1/1000) "도보" "fa-person-walking" "foot-walking" 5
      (by norm_num) ht hmW
  obtain ⟨rC, hC, -, -, -, -, -, -, -⟩ :=
    createFallbackRoute_spec (0, 0) (0, 1/1000) "자전거" "fa-bicycle" "cycling-regular" 15
      (by norm_num) ht hmC
  have hacqD : acquireRoute failOracle (0, 0) (0, 1/1000)
      ⟨"driving-car", "자동차", "fa-car", 60⟩ = none := by
    simp only [acquireRoute, failOracle, errD]
  have hacqW : acquireRoute failOracle (0, 0) (0, 1/1000)
      ⟨"foot-walking", "도보", "fa-person-walking", 5⟩ = some rW := by
    simp only [acquireRoute, failOracle, hW]
  have hacqC : acquireRoute failOracle (0, 0) (0, 1/1000)
      ⟨"cycling-regular", "자전거", "fa-bicycle", 15⟩ = some rC := by
    simp only [acquireRoute, failOracle, hC]
  refine ⟨[rW, rC], ?_, rfl⟩
  simp only [getMultipleRoutes, profiles, List.map_cons, List.map_nil,
    hacqD, hacqW, hacqC, List.filterMap_cons, List.filterMap_nil, id]
  norm_num

/-- C2 (amended): for coordinate pairs whose inflated great-circle distance
`haversine * 1.3` is at least 0.5 km — so that no profile's estimated
duration rounds to zero — and with every primary routing attempt failing,
`getMultipleRoutes` returns exactly one (fallback) route per supported
profile, each with `distance > 0` and `durationMinutes > 0`. -/
theorem c2_routes_per_profile_amended (oracle : String → Except String Route) (s d : ℝ × ℝ)
    (hfail : ∀ pr, ∃ e, oracle pr = Except.error e)
    (hsep : 1/2 ≤ calculateDistance s.2 s.1 d.2 d.1 * 1.3) :
    ∃ rs : List Route, getMultipleRoutes oracle s d = Except.ok rs ∧
      rs.length = 3 ∧
      rs.map Route.profile = ["driving-car", "foot-walking", "cycling-regular"] ∧
      ∀ r ∈ rs, 0 < r.distance ∧ 0 < r.durationMinutes ∧ r.isFallback = true := by
  obtain ⟨eD, heD⟩ := hfail "driving-car"
  obtain ⟨eW, heW⟩ := hfail "foot-walking"
  obtain ⟨eC, heC⟩ := hfail "cycling-regular"
  have ht : 0 < calculateDistance s.2 s.1 d.2 d.1 := by linarith
  have hmD : 0 < round (calculateDistance s.2 s.1 d.2 d.1 * 1.3 / 60 * 60) :=
    round_pos_of_half_le _ (by linarith)
  have hmW : 0 < round (calculateDistance s.2 s.1 d.2 d.1 * 1.3 / 5 * 60) :=
    round_pos_of_half_le _ (by linarith)
  have hmC : 0 < round (calculateDistance s.2 s.1 d.2 d.1 * 1.3 / 15 * 60) :=
    round_pos_of_half_le _ (by linarith)
  obtain ⟨rD, hD, hDdist, hDdur, -, -, hDfb, hDprof, -⟩ :=
    createFallbackRoute_spec s d "자동차" "fa-car" "driving-car" 60 (by norm_num) ht hmD
  obtain ⟨rW, hW, hWdist, hWdur, -, -, hWfb, hWprof, -⟩ :=
    createFallbackRoute_spec s d "도보" "fa-person-walking" "foot-walking" 5 (by norm_num) ht hmW
  obtain ⟨rC, hC, hCdist, hCdur, -, -, hCfb, hCprof, -⟩ :=
    createFallbackRoute_spec s d "자전거" "fa-bicycle" "cycling-regular" 15 (by norm_num) ht hmC
  have hacqD : acquireRoute oracle s d ⟨"driving-car", "자동차", "fa-car", 60⟩ = some rD := by
    simp only [acquireRoute, heD, hD]
  have hacqW : acquireRoute oracle s d ⟨"foot-walking", "도보", "fa-person-walking", 5⟩ = some rW := by
    simp only [acquireRoute, heW, hW]
  have hacqC : acquireRoute oracle s d ⟨"cycling-regular", "자전거", "fa-bicycle", 15⟩ = some rC := by
    simp only [acquireRoute, heC, hC]
  have hlist : getMultipleRoutes oracle s d = Except.ok [rD, rW, rC] := by
    simp only [getMultipleRoutes, profiles, List.map_cons, List.map_nil,
      hacqD, hacqW, hacqC, List.filterMap_cons, List.filterMap_nil, id]
    norm_num
  refine ⟨[rD, rW, rC], hlist, rfl, ?_, ?_⟩
  · simp [hDprof, hWprof, hCprof]
  · intro r hr
    simp only [List.mem_cons, List.not_mem_nil, or_false] at hr
    rcases hr with rfl | rfl | rfl
    · exact ⟨by rw [hDdist]; exact toFixed2_pos _ (by linarith), by rw [hDdur]; exact hmD, hDfb⟩
    · exact ⟨by rw [hWdist]; exact toFixed2_pos _ (by linarith), by rw [hWdur]; exact hmW, hWfb⟩
    · exact ⟨by rw [hCdist]; exact toFixed2_pos _ (by linarith), by rw [hCdur]; exact hmC, hCfb⟩

/-- C2 witness: the amended statement at the concrete pair `[0, 0]`,
`[0, 90]` under the all-fail oracle. -/
theorem c2_routes_per_profile_witness : (∀ pr, ∃ e, failOracle pr = Except.error e) ∧
    1/2 ≤ calculateDistance 0 0 90 0 * 1.3 ∧
    (∃ rs : List Route, getMultipleRoutes failOracle (0, 0) (0, 90) = Except.ok rs ∧
      rs.length = 3 ∧
      rs.map Route.profile = ["driving-car", "foot-walking", "cycling-regular"] ∧
      ∀ r ∈ rs, 0 < r.distance ∧ 0 < r.durationMinutes ∧ r.isFallback = true) := by
  have hsep0 : 1/2 ≤ calculateDistance 0 0 90 0 * 1.3 := by
    rw [calculateDistance_pole]
    nlinarith [Real.pi_gt_three]
  exact ⟨fun pr => ⟨_, rfl⟩, hsep0,
    c2_routes_per_profile_amended failOracle (0, 0) (0, 90) (fun pr => ⟨_, rfl⟩) hsep0⟩

/-- C3: a primary failure is never propagated for its profile — if the
fallback construction succeeds it replaces the primary result — a profile
is lost only when both its primary attempt and its fallback fail, the
distinguished `No routes could be calculated` error is raised exactly when
that happens for every profile, and any surviving profile forces a
successful (`ok`) result. -/
theorem c3_failure_isolation (oracle : String → Except String Route) (s d : ℝ × ℝ) :
    (getMultipleRoutes oracle s d = Except.error "No routes could be calculated" ↔
      ∀ p ∈ profiles, acquireRoute oracle s d p = none) ∧
    (∀ p ∈ profiles, (acquireRoute oracle s d p = none ↔
      (∃ e, oracle p.profile = Except.error e) ∧
      ∃ e, createFallbackRoute s d p.name p.icon p.profile p.speed = Except.error e)) ∧
    (∀ p ∈ profiles, ∀ e fb, oracle p.profile = Except.error e →
      createFallbackRoute s d p.name p.icon p.profile p.speed = Except.ok fb →
      acquireRoute oracle s d p = some fb) ∧
    ((∃ p ∈ profiles, acquireRoute oracle s d p ≠ none) →
      ∃ rs, getMultipleRoutes oracle s d = Except.ok rs) := by
  have key : (profiles.map (acquireRoute oracle s d)).filterMap id = [] ↔
      ∀ p ∈ profiles, acquireRoute oracle s d p = none := by
    rw [List.filterMap_eq_nil_iff]
    constructor
    · intro h p hp
      exact h _ (List.mem_map_of_mem _ hp)
    · intro h o ho
      obtain ⟨p, hp, rfl⟩ := List.mem_map.mp ho
      exact h p hp
  refine ⟨?_, ?_, ?_, ?_⟩
  · unfold getMultipleRoutes
    by_cases hlen : ((profiles.map (acquireRoute oracle s d)).filterMap id).length = 0
    · rw [if_pos hlen]
      simp only [true_iff, iff_true]
      exact key.mp (List.length_eq_zero.mp hlen)
    · rw [if_neg hlen]
      constructor
      · intro h
        exact absurd h (by simp)
      · intro h
        exact absurd (key.mpr h) (fun he => hlen (by rw [he]; rfl))
  · intro p _
    rcases ho : oracle p.profile with e | r
    · rcases hf : createFallbackRoute s d p.name p.icon p.profile p.speed with e2 | fb
      · simp only [acquireRoute, ho, hf]
        simp [ho, hf]
      · simp only [acquireRoute, ho, hf]
        simp [ho, hf]
    · simp only [acquireRoute, ho]
      simp [ho]
  · intro p _ e fb he hfb
    simp only [acquireRoute, he, hfb]
  · rintro ⟨p, hp, hne⟩
    obtain ⟨r, hr⟩ := Option.ne_none_iff_exists'.mp hne
    have hmem : r ∈ (profiles.map (acquireRoute oracle s d)).filterMap id := by
      rw [List.mem_filterMap]
      exact ⟨some r, List.mem_map.mpr ⟨p, hp, hr⟩, rfl⟩
    have hlen : ((profiles.map (acquireRoute oracle s d)).filterMap id).length ≠ 0 := by
      intro h0
      rw [List.length_eq_zero.mp h0] at hmem
      exact absurd hmem (List.not_mem_nil r)
    unfold getMultipleRoutes
    rw [if_neg hlen]
    exact ⟨_, rfl⟩

/-- C3 witness: under the all-fail oracle from `[0, 0]` to `[0, 90]` the
walking profile's fallback survives, and the theorem's last conjunct turns
that into a successful overall result. -/
theorem c3_failure_isolation_witness :
    (∃ p ∈ profiles, acquireRoute failOracle (0, 0) (0, 90) p ≠ none) ∧
    (∃ rs, getMultipleRoutes failOracle (0, 0) (0, 90) = Except.ok rs) := by
  have ht : 0 < calculateDistance (0:ℝ) 0 90 0 := by
    rw [calculateDistance_pole]; positivity
  have hmW : 0 < round (calculateDistance (0:ℝ) 0 90 0 * 1.3 / 5 * 60) := by
    apply round_pos_of_half_le
    rw [calculateDistance_pole]
    nlinarith [Real.pi_gt_three]
  obtain ⟨rW, hW, -, -, -, -, -, -, -⟩ :=
    createFallbackRoute_spec (0, 0) (0, 90) "도보" "fa-person-walking" "foot-walking" 5
      (by norm_num) ht hmW
  have hyp : ∃ p ∈ profiles, acquireRoute failOracle (0, 0) (0, 90) p ≠ none := by
    refine ⟨⟨"foot-walking", "도보", "fa-person-walking", 5⟩, by simp [profiles], ?_⟩
    simp only [acquireRoute, failOracle, hW]
    simp
  exact ⟨hyp, (c3_failure_isolation failOracle (0, 0) (0, 90)).2.2.2 hyp⟩

/-- C4: for every non-empty list, `getOptimalRoute(routes, 'fastest')`
returns the first route attaining the minimum `durationMinutes` (left fold
with a strictly-less-than comparison), and for a missing or empty list it
returns `none`, not an error. -/
theorem c4_fastest_selection :
    getOptimalRoute none "fastest" = none ∧
    getOptimalRoute (some []) "fastest" = none ∧
    ∀ rs : List Route, rs ≠ [] → ∃ r pre post,
      getOptimalRoute (some rs) "fastest" = some r ∧
      rs = pre ++ r :: post ∧
      (∀ x ∈ rs, r.durationMinutes ≤ x.durationMinutes) ∧
      ∀ x ∈ pre, r.durationMinutes < x.durationMinutes := by
  refine ⟨rfl, rfl, ?_⟩
  intro rs hne
  cases rs with
  | nil => exact absurd rfl hne
  | cons h t =>
    obtain ⟨pre, post, hsplit, hmin, hpre⟩ :=
      foldl_pick_first_min (fun r => r.durationMinutes)
        (fun best current =>
          if current.durationMinutes < best.durationMinutes then current else best)
        (fun b c => rfl) t h
    refine ⟨_, pre, post, ?_, hsplit, hmin, hpre⟩
    simp [getOptimalRoute]

/-- C4 witness: a concrete two-route list; the 10-minute walking route
wins. -/
theorem c4_fastest_selection_witness :
    ([⟨[], 5, "", 30, [], "driving-car", "", "", "", false⟩,
      ⟨[], 2, "", 10, [], "foot-walking", "", "", "", false⟩] : List Route) ≠ [] ∧
    (∃ r pre post,
      getOptimalRoute (some [⟨[], 5, "", 30, [], "driving-car", "", "", "", false⟩,
        ⟨[], 2, "", 10, [], "foot-walking", "", "", "", false⟩]) "fastest" = some r ∧
      ([⟨[], 5, "", 30, [], "driving-car", "", "", "", false⟩,
        ⟨[], 2, "", 10, [], "foot-walking", "", "", "", false⟩] : List Route) = pre ++ r :: post ∧
      (∀ x ∈ ([⟨[], 5, "", 30, [], "driving-car", "", "", "", false⟩,
        ⟨[], 2, "", 10, [], "foot-walking", "", "", "", false⟩] : List Route),
        r.durationMinutes ≤ x.durationMinutes) ∧
      ∀ x ∈ pre, r.durationMinutes < x.durationMinutes) :=
  ⟨by simp, c4_fastest_selection.2.2 _ (by simp)⟩

/-- C5: `getOptimalRoute` with criterion `'balanced'` — also the default
when no criterion is given — returns the first route minimizing the
composite score `durationMinutes / 60 + transportCost / 10000`, where the
transport cost is `calculateRouteCost`'s; empty and missing lists give
`none`. -/
theorem c5_balanced_selection :
    (∀ routes, getOptimalRouteDefault routes = getOptimalRoute routes "balanced") ∧
    getOptimalRoute none "balanced" = none ∧
    getOptimalRoute (some []) "balanced" = none ∧
    ∀ rs : List Route, rs ≠ [] → ∃ r pre post,
      getOptimalRoute (some rs) "balanced" = some r ∧
      rs = pre ++ r :: post ∧
      (∀ x ∈ rs,
        (r.durationMinutes : ℚ) / 60 + ((calculateRouteCost r).transport : ℚ) / 10000 ≤
        (x.durationMinutes : ℚ) / 60 + ((calculateRouteCost x).transport : ℚ) / 10000) ∧
      ∀ x ∈ pre,
        (r.durationMinutes : ℚ) / 60 + ((calculateRouteCost r).transport : ℚ) / 10000 <
        (x.durationMinutes : ℚ) / 60 + ((calculateRouteCost x).transport : ℚ) / 10000 := by
  refine ⟨fun routes => rfl, rfl, rfl, ?_⟩
  intro rs hne
  cases rs with
  | nil => exact absurd rfl hne
  | cons h t =>
    obtain ⟨pre, post, hsplit, hmin, hpre⟩ :=
      foldl_pick_first_min
        (fun r => (r.durationMinutes : ℚ) / 60 + ((calculateRouteCost r).transport : ℚ) / 10000)
        (fun best current =>
          if (current.durationMinutes : ℚ) / 60 +
              ((calculateRouteCost current).transport : ℚ) / 10000 <
              (best.durationMinutes : ℚ) / 60 +
              ((calculateRouteCost best).transport : ℚ) / 10000 then current
          else best)
        (fun b c => rfl) t h
    refine ⟨_, pre, post, ?_, hsplit, hmin, hpre⟩
    simp [getOptimalRoute]

/-- C5 witness: in a concrete two-route list the walking route (10 min,
cost 0) beats the driving route (30 min, cost 750). -/
theorem c5_balanced_selection_witness :
    ([⟨[], 5, "", 30, [], "driving-car", "", "", "", false⟩,
      ⟨[], 2, "", 10, [], "foot-walking", "", "", "", false⟩] : List Route) ≠ [] ∧
    (∃ r pre post,
      getOptimalRoute (some [⟨[], 5, "", 30, [], "driving-car", "", "", "", false⟩,
        ⟨[], 2, "", 10, [], "foot-walking", "", "", "", false⟩]) "balanced" = some r ∧
      ([⟨[], 5, "", 30, [], "driving-car", "", "", "", false⟩,
        ⟨[], 2, "", 10, [], "foot-walking", "", "", "", false⟩] : List Route) = pre ++ r :: post ∧
      (∀ x ∈ ([⟨[], 5, "", 30, [], "driving-car", "", "", "", false⟩,
        ⟨[], 2, "", 10, [], "foot-walking", "", "", "", false⟩] : List Route),
        (r.durationMinutes : ℚ) / 60 + ((calculateRouteCost r).transport : ℚ) / 10000 ≤
        (x.durationMinutes : ℚ) / 60 + ((calculateRouteCost x).transport : ℚ) / 10000) ∧
      ∀ x ∈ pre,
        (r.durationMinutes : ℚ) / 60 + ((calculateRouteCost r).transport : ℚ) / 10000 <
        (x.durationMinutes : ℚ) / 60 + ((calculateRouteCost x).transport : ℚ) / 10000) :=
  ⟨by simp, c5_balanced_selection.2.2.2 _ (by simp)⟩

open CostModule in
/-- C6: evaluation of `calculateTripCost` at a total-cost-zero input (no
route, zero days, no places).  The code's naive divisions make every
percentage non-numeric (`NaN`, modelled as `none`) instead of the `0` the
specification requires, so the code, not the claim, is at fault here. -/
theorem c6_zero_total_percentages :
    (calculateTripCost none 0 BudgetLevel.standard BudgetLevel.standard []).total = 0 ∧
    (calculateTripCost none 0 BudgetLevel.standard BudgetLevel.standard []).transportPercent = none ∧
    (calculateTripCost none 0 BudgetLevel.standard BudgetLevel.standard []).accommodationPercent = none ∧
    (calculateTripCost none 0 BudgetLevel.standard BudgetLevel.standard []).foodPercent = none ∧
    (calculateTripCost none 0 BudgetLevel.standard BudgetLevel.standard []).activitiesPercent = none ∧
    (calculateTripCost none 0 BudgetLevel.standard BudgetLevel.standard []).transportPercent ≠ some 0 :=
  ⟨rfl, rfl, rfl, rfl, rfl, by decide⟩

open CostModule in
/-- C7: for every input — including `places = []` and `duration = 1` (zero
nights) — `calculateTripCost`'s total equals the sum of its four
components, with accommodation as nightly rate times `max 0 (duration - 1)`
and food as daily rate times `duration`. -/
theorem c7_total_is_sum (route : Option TransportModule.Route) (duration : ℤ)
    (accommodationLevel foodLevel : BudgetLevel) (places : List Place) :
    (calculateTripCost route duration accommodationLevel foodLevel places).total =
      (calculateTripCost route duration accommodationLevel foodLevel places).transport +
      (calculateTripCost route duration accommodationLevel foodLevel places).accommodation +
      (calculateTripCost route duration accommodationLevel foodLevel places).food +
      (calculateTripCost route duration accommodationLevel foodLevel places).activities ∧
    (calculateTripCost route duration accommodationLevel foodLevel places).accommodation =
      accommodationRate accommodationLevel * max 0 (duration - 1) ∧
    (calculateTripCost route duration accommodationLevel foodLevel places).food =
      foodRate foodLevel * duration :=
  ⟨rfl, rfl, rfl⟩

/-- C8: a query exactly matching a curated gazetteer key is answered from
the table with that entry's name and coordinates, before any network call
or throttling delay; the lookup tries exact key matches first, falls back
to substring matches on key or display name, and always caps the result at
5 entries. -/
theorem c8_curated_search :
    (∀ kc ∈ POPULAR_CITIES, searchAddress kc.1 = SearchOutcome.results [cityResult kc.2]) ∧
    (∀ q, (searchPopularCities q).length ≤ 5) ∧
    (∀ q, q ≠ "" → exactCityMatches (jsLower (jsTrim q)) ≠ [] →
      searchPopularCities q = (exactCityMatches (jsLower (jsTrim q))).take 5) ∧
    (∀ q, q ≠ "" → exactCityMatches (jsLower (jsTrim q)) = [] →
      searchPopularCities q = (partialCityMatches (jsLower (jsTrim q))).take 5) := by
  refine ⟨?_, ?_, ?_, ?_⟩
  · intro kc hkc
    fin_cases hkc <;> rfl
  · intro q
    by_cases hq : q = ""
    · simp [searchPopularCities, hq]
    · simp only [searchPopularCities, if_neg hq]
      exact List.length_take_le 5 _
  · intro q hq hne
    simp only [searchPopularCities, if_neg hq]
    rw [if_neg (by simpa [List.isEmpty_iff] using hne)]
  · intro q hq hemp
    simp only [searchPopularCities, if_neg hq]
    rw [if_pos (by simpa [List.isEmpty_iff] using hemp)]

/-- C8 witness: the exact query `서울` returns the Seoul gazetteer entry
without reaching the network. -/
theorem c8_curated_search_witness :
    (("서울", (⟨"서울특별시, 대한민국", 37.5665, 126.9780⟩ : CityEntry)) ∈ POPULAR_CITIES) ∧
    searchAddress "서울" =
      SearchOutcome.results [cityResult ⟨"서울특별시, 대한민국", 37.5665, 126.9780⟩] := by
  have hmem : ("서울", (⟨"서울특별시, 대한민국", 37.5665, 126.9780⟩ : CityEntry)) ∈ POPULAR_CITIES := by
    unfold POPULAR_CITIES
    exact List.mem_cons_self _ _
  exact ⟨hmem, c8_curated_search.1 _ hmem⟩

/-- C9: POI deduplication, keyed by name and the coordinates rounded to 4
decimals, is idempotent: a second pass over an already-deduplicated list is
the identity. -/
theorem c9_dedup_idempotent (pois : List CostModule.Place) :
    deduplicatePOIs (deduplicatePOIs pois) = deduplicatePOIs pois := by
  unfold deduplicatePOIs
  exact dedupAux_fixed _ []
    (fun p _ => List.not_mem_nil _)
    (dedupAux_keys pois []).2

/-- C10: the Haversine `calculateDistance` is symmetric in its endpoints,
the property the older fallback-route builder relies on when it passes the
endpoints in swapped order. -/
theorem c10_distance_symm (lat1 lng1 lat2 lng2 : ℝ) :
    calculateDistance lat1 lng1 lat2 lng2 = calculateDistance lat2 lng2 lat1 lng1 := by
  simp only [calculateDistance, toRad]
  have h1 : (lat1 - lat2) * (Real.pi / 180) / 2 = -((lat2 - lat1) * (Real.pi / 180) / 2) := by ring
  have h2 : (lng1 - lng2) * (Real.pi / 180) / 2 = -((lng2 - lng1) * (Real.pi / 180) / 2) := by ring
  rw [h1, h2, Real.sin_neg, Real.sin_neg]
  ring_nf
